import Mathlib

/-!
Shallow embedding of `src/logic/laser_scan_logic.py` (class `VoltageScanningLogic`).

Voltages are modelled as rationals; the Python source computes with IEEE floats,
but every claim-relevant computation here is plain field arithmetic, embedded
exactly.  The numpy primitives the source uses (`np.rint`, `np.linspace`,
`np.hstack`, `np.vstack`) are embedded below following the numpy semantics
contemporary with this 2015/2016 source (numpy <= 1.11): `np.linspace` converts
the sample count with `int()` and produces an empty array when that count is
not positive (built on `arange(0, num)`); the explicit `ValueError` for a
negative count was only introduced in numpy 1.12.

The Qt queued-signal machinery (`signal_scan_next_line`, `signal_change_voltage`
connected with `QtCore.Qt.QueuedConnection`) is modelled as an explicit event
queue drained by an event loop (`run_queue`).  An exception escaping a slot is
recorded in the `raised` field of the state and ends that slot invocation,
which is how PyQt delivers uncaught slot exceptions (they are reported and the
event loop continues); no handler in this module catches them.
-/

namespace LaserScan

set_option maxRecDepth 100000

/-- `np.rint`: round to nearest integer, ties to even (IEEE round-half-even),
which is numpy's documented rounding mode for `rint`. -/
def rint (q : ℚ) : ℤ :=
  if q - ⌊q⌋ < (1 : ℚ)/2 then ⌊q⌋
  else if (1 : ℚ)/2 < q - ⌊q⌋ then ⌊q⌋ + 1
  else if ⌊q⌋ % 2 = 0 then ⌊q⌋ else ⌊q⌋ + 1

/-- `np.linspace a b num` with the default `endpoint=True`, as of numpy <= 1.11:
`num` is converted with `int()`; a non-positive count yields an empty array,
`num = 1` yields `[a]`, and otherwise sample `i` is `a + i*(b-a)/(num-1)`
(numpy finally overwrites the last sample with `b`, which with exact rational
arithmetic is the value the formula already gives). -/
def linspace (a b : ℚ) (num : ℤ) : List ℚ :=
  if num ≤ 0 then []
  else if num = 1 then [a]
  else (List.range num.toNat).map (fun i : ℕ => a + (i : ℚ) * (b - a) / ((num : ℚ) - 1))

/-- Source lines 307: `linear_v_step = speed / self._clock_frequency`. -/
def linear_v_step (speed clock : ℚ) : ℚ := speed / clock

/-- Source lines 311-313: `v_range_of_accel = sum(n * linear_v_step / smoothing_range
for n in range(0, smoothing_range))`, with `r = smoothing_range = smoothing_steps + 1`. -/
def v_range_of_accel (step : ℚ) (r : ℕ) : ℚ :=
  ((List.range r).map (fun n : ℕ => (n : ℚ) * step / r)).sum

/-- Source lines 322-325: `smooth_curve = [sum(n * linear_v_step / smoothing_range
for n in range(1, N)) for N in range(1, smoothing_range)]`.  Element `j`
(for `N = j + 1`) is the sum of `m * step / r` for `m = 1 .. j`. -/
def smooth_curve (step : ℚ) (r : ℕ) : List ℚ :=
  (List.range (r - 1)).map (fun j : ℕ =>
    ((List.range j).map (fun n : ℕ => ((n : ℚ) + 1) * step / r)).sum)

/-- Source line 319: `num_of_linear_steps = np.rint((v_max_linear - v_min_linear)
/ linear_v_step)` where `v_min_linear = v_min + v_range_of_accel` and
`v_max_linear = v_max - v_range_of_accel` (lines 316-317). -/
def num_linear_steps (voltage1 voltage2 speed clock : ℚ) (smoothing_steps : ℕ) : ℤ :=
  rint ((((max voltage1 voltage2) - v_range_of_accel (linear_v_step speed clock) (smoothing_steps + 1))
        - ((min voltage1 voltage2) + v_range_of_accel (linear_v_step speed clock) (smoothing_steps + 1)))
       / linear_v_step speed clock)

/-- Source lines 303-332: the ascending ramp
`ramp = np.hstack((accel_part, linear_part, decel_part))` with
`accel_part = v_min + smooth_curve`, `decel_part = v_max - smooth_curve[::-1]`,
`linear_part = np.linspace(v_min_linear, v_max_linear, num_of_linear_steps)`. -/
def ramp_core (voltage1 voltage2 speed clock : ℚ) (smoothing_steps : ℕ) : List ℚ :=
  let v_min := min voltage1 voltage2
  let v_max := max voltage1 voltage2
  let step := linear_v_step speed clock
  let r := smoothing_steps + 1
  let accel := v_range_of_accel step r
  let sc := smooth_curve step r
  (sc.map (fun x => v_min + x))
    ++ linspace (v_min + accel) (v_max - accel) (num_linear_steps voltage1 voltage2 speed clock smoothing_steps)
    ++ (sc.reverse.map (fun x => v_max - x))

/-- Source lines 290-336 (`_generate_ramp`, voltage part): the ascending ramp,
reversed when `voltage2 < voltage1` (lines 335-336). -/
def generate_ramp (voltage1 voltage2 speed clock : ℚ) (smoothing_steps : ℕ) : List ℚ :=
  if voltage2 < voltage1 then (ramp_core voltage1 voltage2 speed clock smoothing_steps).reverse
  else ramp_core voltage1 voltage2 speed clock smoothing_steps

/-- Source lines 341-349: the 4-row scan line `np.vstack((...))`: the three
spatial rows hold the position read from the device constant
(`np.linspace(p, p, len(ramp))`) and the fourth row is the voltage ramp. -/
structure ScanLine where
  xline : List ℚ
  yline : List ℚ
  zline : List ℚ
  aline : List ℚ
deriving DecidableEq

/-- Source lines 338-351: `_generate_ramp` wraps the voltage ramp into a scan
line, holding the other three axes at `spatial_pos =
self._scanning_device.get_scanner_position()` — a read of mutable device state
made inside the generator itself; here that read is passed in as `pos`. -/
def generate_scan_line (pos : ℚ × ℚ × ℚ × ℚ) (voltage1 voltage2 speed clock : ℚ)
    (smoothing_steps : ℕ) : ScanLine :=
  let ramp := generate_ramp voltage1 voltage2 speed clock smoothing_steps
  { xline := linspace pos.1 pos.1 (ramp.length : ℤ)
    yline := linspace pos.2.1 pos.2.1 (ramp.length : ℤ)
    zline := linspace pos.2.2.1 pos.2.2.1 (ramp.length : ℤ)
    aline := ramp }

/-- Operations performed on the scanning device (the `ConfocalScannerInterface`
collaborator); a session's hardware interactions are the trace of these. -/
inductive DevOp
  | lockDev
  | unlockDev
  | setUpClock
  | setUpScanner
  | devScanLine
  | closeDev
  | closeClock
  | getPosition
deriving DecidableEq

/-- The two queued Qt signals of the module (source lines 53-54, connected with
`QueuedConnection` at lines 95-96). -/
inductive Sig
  | changeVoltage
  | scanNextLine
deriving DecidableEq

/-- Python exceptions that can escape a slot of this module. -/
inductive PyError
  /-- `TypeError`: `_scan_line` (line 353) accepts a single `line_to_scan`
  argument, but is called with two positional arguments. -/
  | typeErrorScanLineArity
  /-- An exception raised by `self._scanning_device.scan_line(...)` and
  re-raised by `_scan_line` (line 370). -/
  | hardwareError
deriving DecidableEq

/-- Behaviour of the scanning device collaborator: whether clock and scanner
setup succeed, what each `scan_line` hardware call does (indexed by how many
such calls happened before; `scan_err k = true` means call `k` raises), and
the position it reports. -/
structure Device where
  clock_ok : Bool := true
  scanner_ok : Bool := true
  scan_err : ℕ → Bool := fun _ => false
  scan_counts : ℕ → List ℚ := fun _ => []
  position : ℚ × ℚ × ℚ × ℚ := (0, 0, 0, 0)

/-- The mutable state of the `VoltageScanningLogic` module, its device locks,
the queued signals, the device-call trace and any uncaught slot exceptions.
Defaults are the values set in `activation` (lines 98-125) for a device whose
analog range is (-10, 10): `scan_range = [-1, 1]`, `_current_v = 0`,
`number_of_repeats = 10`, `_clock_frequency = 500`, `_goto_speed = 0.01`,
`_scan_speed = 0.01`, `_smoothing_steps = 10`.  A matrix row is `none` until
the assignment `self.scan_matrix[self._scan_counter] = counts` (line 285) has
run for it (before that it holds the zeros of `np.zeros`, line 185). -/
structure LogicState where
  moduleLocked : Bool := false
  devLocked : Bool := false
  stopRequested : Bool := false
  scan_counter : ℕ := 0
  upwards_scan : Bool := true
  number_of_repeats : ℕ := 10
  clock_frequency : ℚ := 500
  goto_speed : ℚ := 1/100
  scan_speed : ℚ := 1/100
  smoothing_steps : ℕ := 10
  scan_range : ℚ × ℚ := (-1, 1)
  current_v : ℚ := 0
  current_position : ℚ × ℚ × ℚ × ℚ := (0, 0, 0, 0)
  scan_matrix : List (Option (List ℚ)) := []
  trace : List DevOp := []
  queue : List Sig := []
  raised : List PyError := []
deriving DecidableEq

/-- Number of result-matrix rows that have been written. -/
def rows_written (s : LogicState) : ℕ := s.scan_matrix.countP Option.isSome

/-- Source lines 134-151, `goto_voltage`: store the target voltage first
(lines 143-144), then, if the module or the device is locked, return -1
without doing anything else; otherwise emit `signal_change_voltage` (queued)
and return 0. -/
def goto_voltage (s : LogicState) (volts : Option ℚ) : LogicState × ℤ :=
  let s := match volts with
    | some v => { s with current_v := v }
    | none => s
  if s.moduleLocked || s.devLocked then (s, -1)
  else ({ s with queue := s.queue ++ [Sig.changeVoltage] }, 0)

/-- Source lines 242-251, `stop_scanning`: under `self.threadlock`, set
`stopRequested` if the module is locked; always return 0.  No device call, no
signal emission, no blocking wait. -/
def stop_scanning (s : LogicState) : LogicState × ℤ :=
  if s.moduleLocked then ({ s with stopRequested := true }, 0) else (s, 0)

/-- Source lines 191-212, `_initialise_scanner`: lock the module and the
device, set up the clock and the scanner; on either setup failure unlock both
and return -1 (the `self.set_position('scanner')` call on the failure paths
touches no state modelled here). -/
def initialise_scanner (dev : Device) (s : LogicState) : LogicState × ℤ :=
  let s := { s with moduleLocked := true }
  let s := { s with devLocked := true, trace := s.trace ++ [DevOp.lockDev] }
  let s := { s with trace := s.trace ++ [DevOp.setUpClock] }
  if dev.clock_ok then
    let s := { s with trace := s.trace ++ [DevOp.setUpScanner] }
    if dev.scanner_ok then (s, 0)
    else
      let s := { s with devLocked := false, moduleLocked := false, trace := s.trace ++ [DevOp.unlockDev] }
      (s, -1)
  else
    let s := { s with devLocked := false, moduleLocked := false, trace := s.trace ++ [DevOp.unlockDev] }
    (s, -1)

/-- Source lines 372-388, `kill_scanner`: close scanner and clock, then unlock
the device (happy path of the try/except blocks). -/
def kill_scanner (s : LogicState) : LogicState :=
  let s := { s with trace := s.trace ++ [DevOp.closeDev, DevOp.closeClock] }
  { s with devLocked := false, trace := s.trace ++ [DevOp.unlockDev] }

/-- Source lines 253-258, `_close_scanner`: kill the scanner, clear the stop
flag, unlock the module. -/
def close_scanner (s : LogicState) : LogicState :=
  let s := kill_scanner s
  { s with stopRequested := false, moduleLocked := false }

/-- Source lines 353-370, `_scan_line` called with its single `line_to_scan`
argument (the only legal call, made from `_change_voltage` line 162): run the
device sweep; on a device exception, log, call `stop_scanning`, emit
`signal_scan_next_line`, and re-raise (lines 366-370). -/
def scan_line_one (dev : Device) (s : LogicState) : LogicState × Except PyError (List ℚ) :=
  let k := s.trace.count DevOp.devScanLine
  let s := { s with trace := s.trace ++ [DevOp.devScanLine] }
  if dev.scan_err k then
    let s := (stop_scanning s).1
    let s := { s with queue := s.queue ++ [Sig.scanNextLine] }
    (s, Except.error PyError.hardwareError)
  else
    (s, Except.ok (dev.scan_counts k))

/-- Source lines 153-166, `_change_voltage` (the queued slot behind a
successful `goto_voltage`): build the goto ramp from the device's current
voltage to `_current_v` at `_goto_speed` (the ramp generator itself reads the
device position, line 339), initialise the scanner (its return value is
ignored by the source), scan the single line, close the scanner.  A device
exception propagates out of the slot before `_close_scanner` runs. -/
def change_voltage (dev : Device) (s : LogicState) : LogicState :=
  let s := { s with trace := s.trace ++ [DevOp.getPosition, DevOp.getPosition] }
  let s := (initialise_scanner dev s).1
  let r := scan_line_one dev s
  match r.2 with
  | Except.ok _ => close_scanner r.1
  | Except.error e => { r.1 with raised := r.1.raised ++ [e] }

/-- Source lines 260-288, `_do_next_line`, embedded faithfully.

Finishing branch (lines 266-272): both the `upwards_scan` and the downward
branch execute `self._scan_line(self.scan_range[0], self.current_position[3])`
— a call with TWO positional arguments.  `_scan_line` (line 353) is
`def _scan_line(self, line_to_scan = None)`, so Python raises `TypeError` at
the call, before the function body (and hence before any device call) runs;
`_close_scanner()` on line 271 is never reached and the exception escapes the
slot.

Sweep branch (lines 274-288): if the counter is 0, `goto_voltage(scan_range[0])`
runs first (it finds the module locked and returns -1 after storing the target
voltage).  Then `self._scan_line(self.scan_range[0], self.scan_range[1])`
(or the reversed pair) is the same two-positional-argument call: `TypeError`
is raised at the call, so the direction flip, the matrix-row write (line 285),
the counter increment and the re-emission (lines 287-288) are never reached. -/
def do_next_line (s : LogicState) : LogicState :=
  if s.stopRequested || (s.scan_counter == s.number_of_repeats) then
    { s with raised := s.raised ++ [PyError.typeErrorScanLineArity] }
  else
    let s := if s.scan_counter == 0 then (goto_voltage s (some s.scan_range.1)).1 else s
    { s with raised := s.raised ++ [PyError.typeErrorScanLineArity] }

/-- Source lines 214-240, `start_scanning`: update the range bounds, reset the
counter and the direction, allocate the result matrix, snapshot the device
position, lock and set up the scanner; on success emit `signal_scan_next_line`
and return 0, on setup failure return -1. -/
def start_scanning (dev : Device) (s : LogicState) (v_min v_max : Option ℚ) :
    LogicState × ℤ :=
  let s := { s with scan_range := (v_min.getD s.scan_range.1, v_max.getD s.scan_range.2) }
  let s := { s with scan_counter := 0, upwards_scan := true }
  let s := { s with scan_matrix := List.replicate s.number_of_repeats none }
  let s := { s with current_position := dev.position, trace := s.trace ++ [DevOp.getPosition] }
  let r := initialise_scanner dev s
  if r.2 < 0 then (r.1, -1)
  else ({ r.1 with queue := r.1.queue ++ [Sig.scanNextLine] }, 0)

/-- The Qt event loop: deliver queued signals one at a time to their slots
(`QueuedConnection`), with fuel bounding the number of deliveries. -/
def run_queue (dev : Device) : ℕ → LogicState → LogicState
  | 0, s => s
  | Nat.succ fuel, s =>
    match s.queue with
    | [] => s
    | sig :: rest =>
      let s := { s with queue := rest }
      match sig with
      | Sig.scanNextLine => run_queue dev fuel (do_next_line s)
      | Sig.changeVoltage => run_queue dev fuel (change_voltage dev s)

/-- A whole scan session: `start_scanning(v_min, v_max)` followed by draining
the event queue.  If setup failed the queue is empty and nothing runs. -/
def session (dev : Device) (s : LogicState) (v_min v_max : Option ℚ) (fuel : ℕ) :
    LogicState :=
  run_queue dev fuel (start_scanning dev s v_min v_max).1

/-- Device that raises a hardware error on every `scan_line` sweep call. -/
def errDev : Device := { scan_err := fun _ => true }

/-- Final state of the C1 scenario: 5-repeat session against a device whose
every sweep call would raise, queue fully drained. -/
def c1_final : LogicState :=
  session errDev { number_of_repeats := 5 } (some (-1)) (some 1) 20

/-- Final state of the C2 scenario: 3-repeat session on a healthy device, no
stop request, queue fully drained. -/
def c2_final : LogicState :=
  session {} { number_of_repeats := 3 } (some (-1)) (some 1) 20

/-- State right after `start_scanning(-1, 1)` with 5 repeats succeeded. -/
def c3_started : LogicState :=
  (start_scanning {} { number_of_repeats := 5 } (some (-1)) (some 1)).1

/-- `stop_scanning` called while the session is in flight (repeat 0). -/
def c3_stopped : LogicState × ℤ := stop_scanning c3_started

/-- Final state of the C3 scenario after the event queue is drained. -/
def c3_final : LogicState := run_queue {} 20 c3_stopped.1

/-- State right after a default `start_scanning(-1, 1)` succeeded (repeat
counter 0, `signal_scan_next_line` queued). -/
def c4_started : LogicState := (start_scanning {} {} (some (-1)) (some 1)).1

/-- The state at which the queued `_do_next_line` slot starts executing. -/
def c4_slot_entry : LogicState := { c4_started with queue := [] }

theorem getLast?_reverse_eq {α : Type} (l : List α) : l.reverse.getLast? = l.head? := by
  cases l with
  | nil => rfl
  | cons a t =>
    rw [List.reverse_cons, List.getLast?_append_of_ne_nil _ (by simp)]
    rfl

theorem head?_reverse_eq {α : Type} (l : List α) : l.reverse.head? = l.getLast? := by
  have h := getLast?_reverse_eq l.reverse
  rw [List.reverse_reverse] at h
  exact h.symm

theorem head?_map_eq {α β : Type} (f : α → β) (l : List α) :
    (l.map f).head? = l.head?.map f := by
  cases l <;> rfl

theorem getLast?_map_eq {α β : Type} (f : α → β) (l : List α) :
    (l.map f).getLast? = l.getLast?.map f := by
  induction l with
  | nil => rfl
  | cons a t ih =>
    cases t with
    | nil => rfl
    | cons b u =>
      simp only [List.map_cons] at ih ⊢
      rw [List.getLast?_cons_cons, ih, List.getLast?_cons_cons]

theorem linspace_length (a b : ℚ) (n : ℤ) (h : 0 ≤ n) :
    (linspace a b n).length = n.toNat := by
  unfold linspace
  split
  · simp only [List.length_nil]; omega
  · split
    · simp only [List.length_cons, List.length_nil]; omega
    · simp [List.length_map, List.length_range]

theorem linspace_getD (a b : ℚ) (n : ℤ) (h2 : 2 ≤ n) (i : ℕ) (hi : (i : ℤ) < n) :
    (linspace a b n).getD i 0 = a + (i : ℚ) * (b - a) / ((n : ℚ) - 1) := by
  unfold linspace
  rw [if_neg (by omega), if_neg (by omega)]
  rw [List.getD_eq_getElem?_getD, List.getElem?_map,
      List.getElem?_range (by omega : i < n.toNat)]
  rfl

theorem linspace_head? (a b : ℚ) (n : ℤ) (h2 : 2 ≤ n) :
    (linspace a b n).head? = some a := by
  unfold linspace
  rw [if_neg (by omega), if_neg (by omega)]
  obtain ⟨m, hm⟩ : ∃ m, n.toNat = m + 1 := ⟨n.toNat - 1, by omega⟩
  rw [hm, List.range_succ_eq_map]
  simp

theorem linspace_getLast? (a b : ℚ) (n : ℤ) (h2 : 2 ≤ n) :
    (linspace a b n).getLast? = some b := by
  unfold linspace
  rw [if_neg (by omega), if_neg (by omega)]
  obtain ⟨m, hm⟩ : ∃ m, n.toNat = m + 1 := ⟨n.toNat - 1, by omega⟩
  rw [hm, List.range_succ, List.map_append,
      List.getLast?_append_of_ne_nil _ (by simp)]
  have hm' : (m : ℚ) = (n : ℚ) - 1 := by
    have hnn : ((n.toNat : ℤ) : ℚ) = (n : ℚ) := by
      rw [Int.toNat_of_nonneg (by omega)]
    rw [hm] at hnn
    push_cast at hnn
    linarith
  have hne : (n : ℚ) - 1 ≠ 0 := by
    have : (2 : ℚ) ≤ (n : ℚ) := by exact_mod_cast h2
    linarith
  simp only [List.map_cons, List.map_nil]
  rw [show ∀ x : ℚ, ([x] : List ℚ).getLast? = some x from fun x => rfl]
  rw [hm', mul_div_cancel_left₀ _ hne]
  exact congrArg some (by ring)

theorem smooth_curve_length (step : ℚ) (r : ℕ) : (smooth_curve step r).length = r - 1 := by
  simp [smooth_curve]

theorem v_range_of_accel_one (step : ℚ) : v_range_of_accel step 1 = 0 := by
  simp [v_range_of_accel, List.range_succ, List.range_zero]

theorem smooth_curve_one (step : ℚ) : smooth_curve step 1 = [] := by
  simp [smooth_curve]

theorem smooth_curve_head? (step : ℚ) (j : ℕ) :
    (smooth_curve step (j + 2)).head? = some 0 := by
  unfold smooth_curve
  rw [show j + 2 - 1 = j + 1 from rfl, List.range_succ_eq_map]
  simp

theorem v_range_of_accel_nonneg (step : ℚ) (r : ℕ) (h : 0 ≤ step) :
    0 ≤ v_range_of_accel step r := by
  apply List.sum_nonneg
  intro x hx
  simp only [List.mem_map] at hx
  obtain ⟨n, _, rfl⟩ := hx
  positivity

theorem ramp_core_def (v1 v2 s f : ℚ) (k : ℕ) :
    ramp_core v1 v2 s f k =
      ((smooth_curve (linear_v_step s f) (k + 1)).map (fun x => min v1 v2 + x))
        ++ linspace (min v1 v2 + v_range_of_accel (linear_v_step s f) (k + 1))
            (max v1 v2 - v_range_of_accel (linear_v_step s f) (k + 1))
            (num_linear_steps v1 v2 s f k)
        ++ ((smooth_curve (linear_v_step s f) (k + 1)).reverse.map (fun x => max v1 v2 - x)) := rfl

theorem linspace_nil_of_nonpos (a b : ℚ) (n : ℤ) (h : n ≤ 0) : linspace a b n = [] := by
  unfold linspace
  rw [if_pos h]

theorem ramp_core_length (v1 v2 s f : ℚ) (k : ℕ) (n : ℤ)
    (hn : n = num_linear_steps v1 v2 s f k) (h0 : 0 ≤ n) :
    (ramp_core v1 v2 s f k).length = 2 * k + n.toNat := by
  rw [ramp_core_def, ← hn]
  simp only [List.length_append, List.length_map, List.length_reverse,
    smooth_curve_length, linspace_length _ _ _ h0]
  omega

theorem ramp_core_head? (v1 v2 s f : ℚ) (k : ℕ) (n : ℤ)
    (hn : n = num_linear_steps v1 v2 s f k)
    (hk : 1 ≤ k ∨ 2 ≤ n) :
    (ramp_core v1 v2 s f k).head? = some (min v1 v2) := by
  rw [ramp_core_def, ← hn]
  cases k with
  | zero =>
    have h2 : 2 ≤ n := by
      rcases hk with h | h
      · omega
      · exact h
    rw [smooth_curve_one, v_range_of_accel_one]
    simp only [List.map_nil, List.nil_append, List.reverse_nil, List.append_nil]
    rw [add_zero, sub_zero, linspace_head? _ _ _ h2]
  | succ j =>
    have hA : ((smooth_curve (linear_v_step s f) (j + 1 + 1)).map
        (fun x => min v1 v2 + x)) ≠ [] := by
      intro h
      have := congrArg List.length h
      simp [smooth_curve_length] at this
    rw [List.head?_append_of_ne_nil _ (by intro h; rw [List.append_eq_nil] at h; exact hA h.1)]
    rw [List.head?_append_of_ne_nil _ hA]
    rw [head?_map_eq, smooth_curve_head?]
    simp

theorem ramp_core_getLast? (v1 v2 s f : ℚ) (k : ℕ) (n : ℤ)
    (hn : n = num_linear_steps v1 v2 s f k)
    (hk : 1 ≤ k ∨ 2 ≤ n) :
    (ramp_core v1 v2 s f k).getLast? = some (max v1 v2) := by
  rw [ramp_core_def, ← hn]
  cases k with
  | zero =>
    have h2 : 2 ≤ n := by
      rcases hk with h | h
      · omega
      · exact h
    rw [smooth_curve_one, v_range_of_accel_one]
    simp only [List.map_nil, List.nil_append, List.reverse_nil, List.append_nil]
    rw [add_zero, sub_zero, linspace_getLast? _ _ _ h2]
  | succ j =>
    have hC : ((smooth_curve (linear_v_step s f) (j + 1 + 1)).reverse.map
        (fun x => max v1 v2 - x)) ≠ [] := by
      intro h
      have := congrArg List.length h
      simp [smooth_curve_length] at this
    rw [List.getLast?_append_of_ne_nil _ hC]
    rw [getLast?_map_eq, getLast?_reverse_eq, smooth_curve_head?]
    simp

theorem num_linear_steps_smoothing_zero (a b s f : ℚ) (hab : a ≤ b) :
    num_linear_steps a b s f 0 = rint ((b - a) * f / s) := by
  unfold num_linear_steps
  rw [v_range_of_accel_one, max_eq_right hab, min_eq_left hab]
  rw [sub_zero, add_zero]
  unfold linear_v_step
  rw [div_div_eq_mul_div]

/-- C6 (amended): for strictly positive speed and clock frequency, whenever the
linear sample count `n = num_linear_steps ...` is non-negative and the profile
is not in the degenerate short case (`smoothing_steps = 0` with `n ≤ 1`), the
generated profile has length `smoothing_steps * 2 + n`, its first sample IS the
start-side bound `voltage1` (hence within `accel_span` of it, `accel_span`
being non-negative), and its last sample equals the end-side bound
`voltage2`. -/
theorem generate_ramp_shape (v1 v2 s f : ℚ) (k : ℕ) (hs : 0 < s) (hf : 0 < f)
    (n : ℤ) (hn : n = num_linear_steps v1 v2 s f k) (h0 : 0 ≤ n)
    (hk : 1 ≤ k ∨ 2 ≤ n) :
    (generate_ramp v1 v2 s f k).length = 2 * k + n.toNat ∧
    (generate_ramp v1 v2 s f k).head? = some v1 ∧
    (generate_ramp v1 v2 s f k).getLast? = some v2 ∧
    0 ≤ v_range_of_accel (linear_v_step s f) (k + 1) := by
  have hacc : 0 ≤ v_range_of_accel (linear_v_step s f) (k + 1) :=
    v_range_of_accel_nonneg _ _ (le_of_lt (div_pos hs hf))
  unfold generate_ramp
  split
  · next hlt =>
    refine ⟨?_, ?_, ?_, hacc⟩
    · rw [List.length_reverse]
      exact ramp_core_length v1 v2 s f k n hn h0
    · rw [head?_reverse_eq, ramp_core_getLast? v1 v2 s f k n hn hk,
        max_eq_left (le_of_lt hlt)]
    · rw [getLast?_reverse_eq, ramp_core_head? v1 v2 s f k n hn hk,
        min_eq_right (le_of_lt hlt)]
  · next hge =>
    have hle : v1 ≤ v2 := le_of_not_lt hge
    refine ⟨ramp_core_length v1 v2 s f k n hn h0, ?_, ?_, hacc⟩
    · rw [ramp_core_head? v1 v2 s f k n hn hk, min_eq_left hle]
    · rw [ramp_core_getLast? v1 v2 s f k n hn hk, max_eq_right hle]

theorem generate_ramp_shape_wit :
    (0 : ℚ) < 1 ∧ (0 : ℚ) < 10 ∧
    (8 : ℤ) = num_linear_steps 0 1 1 10 2 ∧
    (generate_ramp 0 1 1 10 2).length = 2 * 2 + (8 : ℤ).toNat ∧
    (generate_ramp 0 1 1 10 2).head? = some 0 ∧
    (generate_ramp 0 1 1 10 2).getLast? = some 1 := by
  have h := generate_ramp_shape 0 1 1 10 2 (by norm_num) (by norm_num) 8
    (by with_unfolding_all decide) (by decide) (Or.inl (by decide))
  exact ⟨by norm_num, by norm_num, by with_unfolding_all decide, h.1, h.2.1, h.2.2.1⟩

/-- C5 (amended): with `smoothing_steps = 0` and `a < b`, the profile is the
evenly spaced sequence of `n = rint((b - a) * f / s)` samples running from `a`
to `b`, sample `i` being `a + i * (b - a) / (n - 1)` — so its step is
`(b - a) / (n - 1)`, not `s / f`, and its sample count is `n`, not `n + 1`. -/
theorem smoothing_zero_ramp_evenly_spaced (a b s f : ℚ) (hab : a < b)
    (n : ℤ) (hn : n = rint ((b - a) * f / s)) (h2 : 2 ≤ n) :
    (generate_ramp a b s f 0).length = n.toNat ∧
    (∀ i : ℕ, (i : ℤ) < n →
      (generate_ramp a b s f 0).getD i 0 = a + (i : ℚ) * (b - a) / ((n : ℚ) - 1)) ∧
    (generate_ramp a b s f 0).head? = some a ∧
    (generate_ramp a b s f 0).getLast? = some b := by
  have hnum : num_linear_steps a b s f 0 = n := by
    rw [num_linear_steps_smoothing_zero a b s f (le_of_lt hab), hn]
  have hgen : generate_ramp a b s f 0 = linspace a b n := by
    unfold generate_ramp
    rw [if_neg (not_lt.mpr (le_of_lt hab))]
    rw [ramp_core_def, hnum, smooth_curve_one, v_range_of_accel_one]
    rw [min_eq_left (le_of_lt hab), max_eq_right (le_of_lt hab)]
    simp only [List.map_nil, List.nil_append, List.reverse_nil, List.append_nil]
    rw [add_zero, sub_zero]
  rw [hgen]
  exact ⟨linspace_length a b n (by omega),
    fun i hi => linspace_getD a b n h2 i hi,
    linspace_head? a b n h2,
    linspace_getLast? a b n h2⟩

theorem smoothing_zero_ramp_evenly_spaced_wit :
    (0 : ℚ) < 1 ∧ (100 : ℤ) = rint (((1 : ℚ) - 0) * 10 / (1/10)) ∧
    (generate_ramp 0 1 (1/10) 10 0).length = (100 : ℤ).toNat ∧
    (generate_ramp 0 1 (1/10) 10 0).getD 1 0 = 0 + (1 : ℚ) * (1 - 0) / ((100 : ℚ) - 1) ∧
    (generate_ramp 0 1 (1/10) 10 0).head? = some 0 ∧
    (generate_ramp 0 1 (1/10) 10 0).getLast? = some 1 := by
  have h := smoothing_zero_ramp_evenly_spaced 0 1 (1/10) 10 (by norm_num) 100
    (by with_unfolding_all decide) (by decide)
  exact ⟨by norm_num, by with_unfolding_all decide, h.1,
    h.2.1 1 (by decide), h.2.2.1, h.2.2.2⟩

/-- C5 counterexample: the spec scenario `generate(0.0, 1.0, speed=0.1,
clock=10.0, smoothing_steps=0)` does NOT return 11 samples with step
`s/f = 0.01`: the code produces `rint(100) = 100` samples, and the distance
between consecutive samples is `1/99`, not `s/f = 1/100`. -/
theorem smoothing_zero_scenario_not_eleven_samples :
    (generate_ramp 0 1 (1/10) 10 0).length = 100 ∧
    ((generate_ramp 0 1 (1/10) 10 0).length = 11 → False) ∧
    (generate_ramp 0 1 (1/10) 10 0).getD 1 0 = 1/99 ∧
    ((generate_ramp 0 1 (1/10) 10 0).getD 1 0 = (1/10) / 10 → False) := by
  with_unfolding_all decide

/-- C7: when the computed linear sample count is negative (acceleration and
deceleration spans overlap), `np.linspace` of this era yields an empty linear
part, so generation still returns a well-formed profile of the
`2 * smoothing_steps` smoothing samples alone — the clamped "zero linear
samples" fallback; it never produces negative-length output. -/
theorem generate_ramp_negative_linear_clamped (v1 v2 s f : ℚ) (k : ℕ)
    (hneg : num_linear_steps v1 v2 s f k < 0) :
    (generate_ramp v1 v2 s f k).length = 2 * k := by
  have hcore : (ramp_core v1 v2 s f k).length = 2 * k := by
    rw [ramp_core_def]
    rw [linspace_nil_of_nonpos _ _ _ (by omega)]
    simp only [List.length_append, List.length_map, List.length_reverse,
      List.length_nil, smooth_curve_length]
    omega
  unfold generate_ramp
  split
  · rw [List.length_reverse]; exact hcore
  · exact hcore

theorem generate_ramp_negative_linear_clamped_wit :
    num_linear_steps 0 0 1 1 1 < 0 ∧ (generate_ramp 0 0 1 1 1).length = 2 * 1 :=
  ⟨by with_unfolding_all decide,
   generate_ramp_negative_linear_clamped 0 0 1 1 1 (by with_unfolding_all decide)⟩

/-- C8 counterexample: `_generate_ramp` is not a pure function of
(v_start, v_end, speed, clock, smoothing_steps): its return value also embeds
the scanner position read from the device at call time (line 339), so two
invocations with identical ramp inputs but a changed device position give
different outputs. -/
theorem scan_line_depends_on_position :
    generate_scan_line (0, 0, 0, 0) 0 1 1 10 0 ≠ generate_scan_line (1, 0, 0, 0) 0 1 1 10 0 := by
  with_unfolding_all decide

/-- C8 (amended): the voltage-ramp row of the generated scan line is a pure
function of the five ramp inputs — it does not depend on the device position
read; only the three spatial rows do. -/
theorem ramp_row_independent_of_position (p q : ℚ × ℚ × ℚ × ℚ)
    (v1 v2 s f : ℚ) (k : ℕ) :
    (generate_scan_line p v1 v2 s f k).aline = (generate_scan_line q v1 v2 s f k).aline := rfl

/-- C6 counterexample: a valid, non-degenerate input on which the last sample
does not equal the end-side bound.  With `v_start = 0`, `v_end = 1/100`,
`speed = 1`, `clock = 100`, `smoothing_steps = 0` (step `1/100`, accel span 0,
linear count `rint(1) = 1 ≥ 0`), the profile is the single sample `[0]`:
its last sample is `0`, not the end-side bound `1/100`. -/
theorem ramp_last_sample_short :
    num_linear_steps 0 (1/100) 1 100 0 = 1 ∧
    generate_ramp 0 (1/100) 1 100 0 = [0] ∧
    (generate_ramp 0 (1/100) 1 100 0).getLast? = some 0 ∧
    ((generate_ramp 0 (1/100) 1 100 0).getLast? = some (1/100) → False) := by
  with_unfolding_all decide

/-- C9: `goto_voltage` called while the module or the scanning device is
locked stores the target, returns the busy error code -1 (returned, not
raised), performs no device operation and schedules no queued work. -/
theorem goto_voltage_busy_no_io (st : LogicState) (v : ℚ)
    (h : st.moduleLocked = true ∨ st.devLocked = true) :
    (goto_voltage st (some v)).2 = -1 ∧
    (goto_voltage st (some v)).1.trace = st.trace ∧
    (goto_voltage st (some v)).1.queue = st.queue := by
  unfold goto_voltage
  rcases h with h | h <;> simp [h]

theorem goto_voltage_busy_no_io_wit :
    (goto_voltage { moduleLocked := true } (some 2)).2 = -1 ∧
    (goto_voltage { moduleLocked := true } (some 2)).1.trace
      = ({ moduleLocked := true } : LogicState).trace ∧
    (goto_voltage { moduleLocked := true } (some 2)).1.queue
      = ({ moduleLocked := true } : LogicState).queue :=
  goto_voltage_busy_no_io { moduleLocked := true } 2 (Or.inl rfl)

/-- C10: `goto_voltage(v)` stores `v` into the module's target voltage before
the lock check, so the stored target changes even when the call is rejected
busy with -1 and no device operation happens. -/
theorem goto_voltage_stores_target_first (st : LogicState) (v : ℚ) :
    (goto_voltage st (some v)).1.current_v = v ∧
    (st.moduleLocked = true ∨ st.devLocked = true →
      (goto_voltage st (some v)).2 = -1 ∧
      (goto_voltage st (some v)).1.trace = st.trace) := by
  constructor
  · by_cases hb : (st.moduleLocked || st.devLocked) = true
    · simp [goto_voltage, hb]
    · simp [goto_voltage, hb]
  · intro h
    have hb : (st.moduleLocked || st.devLocked) = true := by
      rcases h with h | h <;> simp [h]
    simp [goto_voltage, hb]

theorem goto_voltage_stores_target_first_wit :
    (goto_voltage { devLocked := true } (some 7)).1.current_v = 7 ∧
    (goto_voltage { devLocked := true } (some 7)).2 = -1 ∧
    (goto_voltage { devLocked := true } (some 7)).1.trace
      = ({ devLocked := true } : LogicState).trace :=
  ⟨(goto_voltage_stores_target_first { devLocked := true } 7).1,
   ((goto_voltage_stores_target_first { devLocked := true } 7).2 (Or.inr rfl)).1,
   ((goto_voltage_stores_target_first { devLocked := true } 7).2 (Or.inr rfl)).2⟩

/-- C1: the claimed scenario cannot happen and its guaranteed cleanup never
runs.  In a session the device sweep is never even invoked (the two-argument
`_scan_line` calls raise `TypeError` first, so zero `scan_line` device calls
occur even with a device rigged to fail every sweep), the only error raised is
that `TypeError` — not a hardware execution error — and afterwards the module
and device locks are still held and the state never returns to Idle; no matrix
row is ever written. -/
theorem session_error_path_unreachable :
    c1_final.trace.count DevOp.devScanLine = 0 ∧
    c1_final.raised = [PyError.typeErrorScanLineArity] ∧
    c1_final.moduleLocked = true ∧
    c1_final.devLocked = true ∧
    rows_written c1_final = 0 := by
  with_unfolding_all decide

/-- C2: a session run to completion on a healthy device with N = 3 repeats and
no stop request writes ZERO matrix rows (not N), never increments the repeat
counter, leaves both the controller and the device lock held, and dies with
the uncaught `TypeError` from the two-argument `_scan_line` call on the first
sweep. -/
theorem completed_session_writes_no_rows :
    rows_written c2_final = 0 ∧
    c2_final.scan_counter = 0 ∧
    c2_final.moduleLocked = true ∧
    c2_final.devLocked = true ∧
    c2_final.raised = [PyError.typeErrorScanLineArity] ∧
    c2_final.queue = [] := by
  with_unfolding_all decide

/-- C3: `stop_scanning` itself behaves as claimed — it returns 0 and only sets
the stop flag (no device operation, no blocking, no queued work) — and no
matrix row is ever written; but the session then never reaches Idle: the
finishing branch of `_do_next_line` raises the two-argument `_scan_line`
`TypeError` before `_close_scanner`, so the module and device stay locked and
the stop flag is never cleared. -/
theorem stop_request_leaves_module_locked :
    c3_stopped.2 = 0 ∧
    c3_stopped.1 = { c3_started with stopRequested := true } ∧
    c3_final.moduleLocked = true ∧
    c3_final.devLocked = true ∧
    c3_final.stopRequested = true ∧
    rows_written c3_final = 0 ∧
    c3_final.trace.count DevOp.devScanLine = 0 ∧
    c3_final.raised = [PyError.typeErrorScanLineArity] := by
  with_unfolding_all decide

/-- C4: the move-to-start never executes.  At repeat counter 0 the code calls
`goto_voltage(scan_range[0])` while the controller (and the device) still hold
the lock taken in `_initialise_scanner`, so that call returns the busy code
-1, stores the target voltage, emits nothing and performs no device operation;
no goto-speed ramp is built or executed, and the subsequent sweep call raises
the arity `TypeError`, never reaching the device. -/
theorem counter_zero_goto_rejected_busy :
    c4_started.queue = [Sig.scanNextLine] ∧
    c4_slot_entry.scan_counter = 0 ∧
    c4_slot_entry.moduleLocked = true ∧
    c4_slot_entry.scan_range.1 = -1 ∧
    (goto_voltage c4_slot_entry (some (-1))).2 = -1 ∧
    (goto_voltage c4_slot_entry (some (-1))).1
      = { c4_slot_entry with current_v := -1 } ∧
    (do_next_line c4_slot_entry).trace = c4_slot_entry.trace ∧
    (do_next_line c4_slot_entry).queue = [] ∧
    (do_next_line c4_slot_entry).raised = [PyError.typeErrorScanLineArity] := by
  with_unfolding_all decide

end LaserScan
